import Mathlib

/-!
Verification of `packages/common/src/load-module.ts` (siemens/angular-builders).

The file exports one async function

  loadModule<T>(modulePath: string, tsConfig: string): Promise<T>

which dispatches on `path.extname(modulePath)`:
  - ".mjs": returns `(await loadEsmModule(url.pathToFileURL(modulePath))).default`
  - ".cjs": returns `require(modulePath)`
  - ".ts" : registers a TS project, tries `require(modulePath).default || require(modulePath)`,
            on an ERR_REQUIRE_ESM error falls back to the dynamic import's `.default`,
            rethrows any other error, and unregisters in a `finally` block
  - otherwise: tries `require(modulePath)`, with the same ERR_REQUIRE_ESM fallback /
            rethrow behaviour (and no registration, no `.default` unwrapping on success).

The embedding below is a shallow one: JavaScript values are `JsValue`, thrown errors
are `JsError` (identified by their `code` property plus an identity tag), the runtime
module system is an environment of two pure primitives (synchronous `require` and the
dynamic `import()` reached through `loadEsmModule`), and the settled outcome of the
returned promise is an `Except JsError JsValue`.  Side effects on the compiler-project
registrar and invocations of the two load primitives are recorded as an event trace.
-/

/-- A JavaScript runtime value, as far as this loader can observe one:
`undefined`, `null`, booleans, numbers, strings, and objects (association
lists of string-keyed fields).  Module exports and namespace objects are
values of this type. -/
inductive JsValue where
  | undef
  | null
  | bool (b : Bool)
  | num (n : Int)
  | str (s : String)
  | obj (fields : List (String × JsValue))

/-- A thrown JavaScript error, observed through its `code` property (which the
source compares against the string ERR_REQUIRE_ESM; `none` models an absent /
undefined `code`) and an identity tag so that distinct error objects with equal
codes stay distinguishable ("rethrown unchanged" is equality of this value). -/
structure JsError where
  code : Option String
  tag : Nat
deriving DecidableEq, Repr

/-- The TypeError raised by a property access on `undefined` or `null`. -/
def typeError : JsError := ⟨none, 0⟩

/-- JavaScript truthiness, used by the source's `require(p).default || require(p)`. -/
def truthy : JsValue → Bool
  | .undef => false
  | .null => false
  | .bool b => b
  | .num n => n != 0
  | .str s => s != ""
  | .obj _ => true

/-- JavaScript property access `v[k]`: on an object it yields the field's value
(or `undefined` when absent), on other non-nullish primitives it yields
`undefined`, and on `undefined` / `null` it throws a TypeError. -/
def getField (v : JsValue) (k : String) : Except JsError JsValue :=
  match v with
  | .undef => .error typeError
  | .null => .error typeError
  | .obj fields => .ok ((fields.lookup k).getD .undef)
  | _ => .ok (.undef)

/-!
Node's `path.extname` (posix variant), transcribed from `lib/path.js`: a single
backwards scan tracking the candidate extension start (`startDot`), the end of the
last path component (`endPos`), the start of that component (`startPart`), whether
we are still inside trailing slashes (`matchedSlash`), and `preDotState`.  The
sentinel -1 of the JavaScript code is kept by using `Int` indices.
-/

/-- Scanner state of the `path.extname` loop; `halted` models the loop's `break`. -/
structure ExtSt where
  startDot : Int := -1
  startPart : Int := 0
  endPos : Int := -1
  matchedSlash : Bool := true
  preDotState : Int := 0
  halted : Bool := false
deriving DecidableEq, Repr

/-- One iteration of the `path.extname` scan at index `ic.1` holding char `ic.2`. -/
def extStep (st : ExtSt) (ic : Nat × Char) : ExtSt :=
  if st.halted then st
  else
    let i : Int := ic.1
    let c := ic.2
    if c = '/' then
      if st.matchedSlash then st
      else { st with startPart := i + 1, halted := true }
    else
      let st1 :=
        if st.endPos = -1 then { st with matchedSlash := false, endPos := i + 1 }
        else st
      if c = '.' then
        if st1.startDot = -1 then { st1 with startDot := i }
        else if st1.preDotState ≠ 1 then { st1 with preDotState := 1 }
        else st1
      else if st1.startDot ≠ -1 then { st1 with preDotState := -1 }
      else st1

/-- Node's `path.extname` (posix): the trailing extension of the last path
component, dot included; empty for dotless names, for a leading dot that is the
only dot of the component, and for the component "..". -/
def extname (p : String) : String :=
  let st := (p.data.enum.reverse).foldl extStep {}
  if st.startDot = -1 ∨ st.endPos = -1 ∨ st.preDotState = 0 ∨
      (st.preDotState = 1 ∧ st.startDot = st.endPos - 1 ∧ st.startDot = st.startPart + 1) then
    ""
  else
    String.mk ((p.data.drop st.startDot.toNat).take (st.endPos - st.startDot).toNat)


/-- Model of Node's `url.pathToFileURL`, the conversion of a filesystem path to a
canonical module locator; modelled abstractly as an injective tagging (the real
percent-encoding details are outside the claims, which only need that the
dynamic load is keyed by the file URL of the module path). -/
def pathToFileURL (p : String) : String := "file://" ++ p

/-- Observable actions of one `loadModule` call, in order: the registrar calls
`registerTsProject(tsConfig)` / the returned `unregisterTsProject()`, and the two
load primitives (`require(path)` and the dynamic `import(url)` inside
`loadEsmModule`). -/
inductive Ev where
  | register (tsConfig : String)
  | unregister (tsConfig : String)
  | syncRequire (p : String)
  | dynImport (u : String)
deriving DecidableEq, Repr

/-- The runtime module system, an external collaborator: the synchronous
load-by-path primitive (`require`) and the asynchronous dynamic-load-by-URL
primitive reached through `loadEsmModule` (its settled outcome).  Both are pure
functions of the path for one fixed state of the filesystem, so an unchanged
module loads to the same result each time. -/
structure ModuleEnv where
  require : String → Except JsError JsValue
  importModule : String → Except JsError JsValue

/-- Model of the source's `loadEsmModule`: the `Function`-constructor wrapper is a
TypeScript down-levelling workaround with no semantic content, so the model is
just the dynamic import primitive itself applied to the locator. -/
def loadEsmModule (env : ModuleEnv) (u : String) : Except JsError JsValue :=
  env.importModule u

/-- The value of `(await loadEsmModule(u)).default`: dynamic import followed by
the `default` property access on the awaited namespace; an import failure
(rejected promise) propagates. -/
def importDefault (env : ModuleEnv) (u : String) : Except JsError JsValue :=
  (loadEsmModule env u).bind (fun ns => getField ns "default")

/-- The body of the ".ts" branch's `try`, which is also what its `return`
evaluates: `require(modulePath).default || require(modulePath)` — the first
`require`, the `.default` access (which can throw a TypeError on a nullish
export), the truthiness test of `||`, and on a falsy left operand a second
`require` of the same path.  The second component is the trace of load-primitive
invocations. -/
def requireDefaultOrRaw (env : ModuleEnv) (modulePath : String) :
    Except JsError JsValue × List Ev :=
  match env.require modulePath with
  | .error e => (.error e, [.syncRequire modulePath])
  | .ok m =>
    match getField m "default" with
    | .error e => (.error e, [.syncRequire modulePath])
    | .ok d =>
      if truthy d then (.ok d, [.syncRequire modulePath])
      else (env.require modulePath, [.syncRequire modulePath, .syncRequire modulePath])

/-- The shared `catch (e)` block of the ".ts" and default branches: on a thrown
`e` with `e.code === 'ERR_REQUIRE_ESM'` the result becomes
`(await loadEsmModule(url.pathToFileURL(modulePath))).default`; any other error
is rethrown unchanged (`throw e`). -/
def catchEsmFallback (env : ModuleEnv) (modulePath : String)
    (attempt : Except JsError JsValue × List Ev) : Except JsError JsValue × List Ev :=
  match attempt with
  | (.ok v, evs) => (.ok v, evs)
  | (.error e, evs) =>
    if e.code = some "ERR_REQUIRE_ESM" then
      let u := pathToFileURL modulePath
      (importDefault env u, evs ++ [.dynImport u])
    else (.error e, evs)

/-- The ".ts" branch without its surrounding registration (`try`/`catch`, the
`finally` excluded): synchronous attempt with `.default ||` unwrapping, then the
ERR_REQUIRE_ESM fallback / rethrow. -/
def tsBody (env : ModuleEnv) (modulePath : String) : Except JsError JsValue × List Ev :=
  catchEsmFallback env modulePath (requireDefaultOrRaw env modulePath)

/-- The default (".js" and everything unrecognized) branch: plain
`require(modulePath)` — no `.default` unwrapping — then the same
ERR_REQUIRE_ESM fallback / rethrow. -/
def defaultBody (env : ModuleEnv) (modulePath : String) : Except JsError JsValue × List Ev :=
  catchEsmFallback env modulePath (env.require modulePath, [.syncRequire modulePath])

/-- Shallow embedding of `loadModule` (load-module.ts, lines 25-73): the settled
outcome of the returned promise paired with the trace of registrar and
load-primitive events.  Modelled from the spec: the compiler-project registrar
(`registerTsProject`, whose source file register-ts-project.ts is outside this
snippet) is kept abstract — `register(descriptor)` returns a deregister handle,
and the call / handle invocation appear as `Ev.register` / `Ev.unregister`
events; the `finally` block places the `unregister` event after the try/catch
body's events on every exit path. -/
def loadModule (env : ModuleEnv) (modulePath tsConfig : String) :
    Except JsError JsValue × List Ev :=
  let ext := extname modulePath
  if ext = ".mjs" then
    let u := pathToFileURL modulePath
    (importDefault env u, [.dynImport u])
  else if ext = ".cjs" then
    (env.require modulePath, [.syncRequire modulePath])
  else if ext = ".ts" then
    let body := tsBody env modulePath
    (body.1, .register tsConfig :: body.2 ++ [.unregister tsConfig])
  else
    defaultBody env modulePath

/-- Registrar / load-primitive classification of events. -/
def isRegEvent : Ev → Bool
  | .register _ => true
  | .unregister _ => true
  | _ => false

/-- The subtrace of registrar events. -/
def regEvents (evs : List Ev) : List Ev := evs.filter isRegEvent

/-- Load-attempt classification of events. -/
def isLoadEvent : Ev → Bool
  | .syncRequire _ => true
  | .dynImport _ => true
  | _ => false

/-- The subtrace of load-primitive invocations. -/
def loadEvents (evs : List Ev) : List Ev := evs.filter isLoadEvent

/-- Modelled from the spec: the registrar's state, a stack of active
compiler-project registrations; `register(descriptor)` pushes the descriptor and
the handle's `deregister()` removes the registration it created (the top one, as
the handle is invoked in the same call's `finally`). -/
def applyEv (s : List String) : Ev → List String
  | .register t => t :: s
  | .unregister _ => s.tail
  | _ => s

/-- The registrar state after a trace of events runs from state `s`. -/
def runEvents (s : List String) (evs : List Ev) : List String := evs.foldl applyEv s

/-- Two successive calls of `loadModule` on the same path, project descriptor and
(unchanged) module environment: both outcomes, and the concatenated trace. -/
def loadTwice (env : ModuleEnv) (modulePath tsConfig : String) :
    (Except JsError JsValue × Except JsError JsValue) × List Ev :=
  let r1 := loadModule env modulePath tsConfig
  let r2 := loadModule env modulePath tsConfig
  ((r1.1, r2.1), r1.2 ++ r2.2)

/-! Concrete module environments used by witnesses and counterexamples. -/

/-- Environment whose modules are objects with a truthy "default" field. -/
def envTruthyDefault : ModuleEnv where
  require := fun _ => .ok (.obj [("default", .num 5)])
  importModule := fun _ => .ok (.obj [("default", .num 7)])

/-- Environment whose modules carry the field "default" holding the falsy `false`. -/
def envFalsyDefault : ModuleEnv where
  require := fun _ => .ok (.obj [("default", .bool false)])
  importModule := fun _ => .ok (.obj [("default", .num 7)])

/-- Environment whose synchronous load throws MODULE_NOT_FOUND. -/
def envOtherErr : ModuleEnv where
  require := fun _ => .error ⟨some "MODULE_NOT_FOUND", 2⟩
  importModule := fun _ => .ok (.obj [("default", .num 7)])

/-- Environment whose synchronous load throws ERR_REQUIRE_ESM and whose
dynamic load yields a namespace with a default export. -/
def envEsmErr : ModuleEnv where
  require := fun _ => .error ⟨some "ERR_REQUIRE_ESM", 3⟩
  importModule := fun _ => .ok (.obj [("default", .num 7)])

/-- Environment whose synchronous load throws ERR_REQUIRE_ESM and whose
dynamic load yields a namespace without a default export. -/
def envEsmNoDefault : ModuleEnv where
  require := fun _ => .error ⟨some "ERR_REQUIRE_ESM", 3⟩
  importModule := fun _ => .ok (.obj [("named", .num 9)])

example : extname "a.ts" = ".ts" := by decide
example : extname "a.mjs" = ".mjs" := by decide
example : extname "a.cjs" = ".cjs" := by decide
example : extname "a.js" = ".js" := by decide
example : extname "dir.ts/file" = "" := by decide
example : extname ".ts" = "" := by decide
example : extname "a.TS" = ".TS" := by decide
example : extname "a." = "." := by decide
example : extname ".." = "" := by decide

/-! Branch equations of `loadModule`, one per arm of the source's `switch`. -/

lemma loadModule_mjs (env : ModuleEnv) (p t : String) (hext : extname p = ".mjs") :
    loadModule env p t =
      (importDefault env (pathToFileURL p), [Ev.dynImport (pathToFileURL p)]) := by
  unfold loadModule
  rw [hext]
  rfl

lemma loadModule_cjs (env : ModuleEnv) (p t : String) (hext : extname p = ".cjs") :
    loadModule env p t = (env.require p, [Ev.syncRequire p]) := by
  unfold loadModule
  rw [hext]
  rfl

lemma loadModule_ts (env : ModuleEnv) (p t : String) (hext : extname p = ".ts") :
    loadModule env p t =
      ((tsBody env p).1, Ev.register t :: (tsBody env p).2 ++ [Ev.unregister t]) := by
  unfold loadModule
  rw [hext]
  rfl

lemma loadModule_other (env : ModuleEnv) (p t : String) (h1 : extname p ≠ ".mjs")
    (h2 : extname p ≠ ".cjs") (h3 : extname p ≠ ".ts") :
    loadModule env p t = defaultBody env p := by
  simp only [loadModule]
  rw [if_neg h1, if_neg h2, if_neg h3]

/-! Shape of the event traces produced by the branch bodies. -/

lemma requireDefaultOrRaw_snd (env : ModuleEnv) (p : String) :
    (requireDefaultOrRaw env p).2 = [Ev.syncRequire p] ∨
    (requireDefaultOrRaw env p).2 = [Ev.syncRequire p, Ev.syncRequire p] := by
  unfold requireDefaultOrRaw
  split
  · exact Or.inl rfl
  · split
    · exact Or.inl rfl
    · split
      · exact Or.inl rfl
      · exact Or.inr rfl

lemma catchEsmFallback_snd (env : ModuleEnv) (p : String)
    (a : Except JsError JsValue × List Ev) :
    (catchEsmFallback env p a).2 = a.2 ∨
    (catchEsmFallback env p a).2 = a.2 ++ [Ev.dynImport (pathToFileURL p)] := by
  obtain ⟨r, evs⟩ := a
  rcases r with e | v
  · unfold catchEsmFallback
    by_cases h : e.code = some "ERR_REQUIRE_ESM" <;> simp [h]
  · exact Or.inl rfl

lemma tsBody_snd_not_reg (env : ModuleEnv) (p : String) :
    ∀ e ∈ (tsBody env p).2, isRegEvent e = false := by
  intro e he
  rcases catchEsmFallback_snd env p (requireDefaultOrRaw env p) with h | h <;>
    rcases requireDefaultOrRaw_snd env p with h2 | h2 <;>
    unfold tsBody at he <;> rw [h, h2] at he <;> simp at he
  all_goals try subst he
  all_goals try rcases he with rfl | rfl
  all_goals rfl

lemma defaultBody_snd_not_reg (env : ModuleEnv) (p : String) :
    ∀ e ∈ (defaultBody env p).2, isRegEvent e = false := by
  intro e he
  rcases catchEsmFallback_snd env p (env.require p, [Ev.syncRequire p]) with h | h <;>
    unfold defaultBody at he <;> rw [h] at he <;> simp at he
  all_goals try subst he
  all_goals try rcases he with rfl | rfl
  all_goals rfl

lemma runEvents_not_reg (evs : List Ev) (h : ∀ e ∈ evs, isRegEvent e = false)
    (s : List String) : runEvents s evs = s := by
  induction evs generalizing s with
  | nil => rfl
  | cons a l ih =>
    have ha := h a (by simp)
    have hs : applyEv s a = s := by
      cases a with
      | register t => simp [isRegEvent] at ha
      | unregister t => simp [isRegEvent] at ha
      | syncRequire q => rfl
      | dynImport u => rfl
    show runEvents (applyEv s a) l = s
    rw [hs]
    exact ih (fun e he => h e (by simp [he])) s

lemma runEvents_loadModule (env : ModuleEnv) (p t : String) (s : List String) :
    runEvents s (loadModule env p t).2 = s := by
  by_cases h1 : extname p = ".mjs"
  · rw [loadModule_mjs env p t h1]; rfl
  · by_cases h2 : extname p = ".cjs"
    · rw [loadModule_cjs env p t h2]; rfl
    · by_cases h3 : extname p = ".ts"
      · rw [loadModule_ts env p t h3]
        have hb : List.foldl applyEv (t :: s) (tsBody env p).2 = t :: s :=
          runEvents_not_reg _ (tsBody_snd_not_reg env p) (t :: s)
        show List.foldl applyEv s ((Ev.register t :: (tsBody env p).2) ++ [Ev.unregister t]) = s
        rw [List.foldl_append]
        show List.foldl applyEv (List.foldl applyEv (t :: s) (tsBody env p).2)
          [Ev.unregister t] = s
        rw [hb]
        rfl
      · rw [loadModule_other env p t h1 h2 h3]
        exact runEvents_not_reg _ (defaultBody_snd_not_reg env p) s


/-- Reduction of `loadModule` on the ERR_REQUIRE_ESM fallback, shared by the
".ts" and default branches: the outcome is the dynamic import's "default". -/
lemma loadModule_esm_fallback (env : ModuleEnv) (p t : String) (e : JsError)
    (h1 : extname p ≠ ".mjs") (h2 : extname p ≠ ".cjs")
    (hreq : env.require p = .error e) (hcode : e.code = some "ERR_REQUIRE_ESM") :
    (loadModule env p t).1 = importDefault env (pathToFileURL p) := by
  have hbody : ∀ evs, (catchEsmFallback env p (.error e, evs)).1 =
      importDefault env (pathToFileURL p) := by
    intro evs
    unfold catchEsmFallback
    show (if e.code = some "ERR_REQUIRE_ESM" then
        let u := pathToFileURL p
        (importDefault env u, evs ++ [Ev.dynImport u])
      else (Except.error e, evs)).1 = importDefault env (pathToFileURL p)
    rw [if_pos hcode]
  by_cases h3 : extname p = ".ts"
  · rw [loadModule_ts env p t h3]
    show (tsBody env p).1 = _
    unfold tsBody requireDefaultOrRaw
    rw [hreq]
    exact hbody _
  · rw [loadModule_other env p t h1 h2 h3]
    unfold defaultBody
    rw [hreq]
    exact hbody _

/-- C1, amended: for a ".ts" path whose synchronous load succeeds with a module
object, `loadModule` returns the object's "default" field exactly when that
field's value is truthy, and the raw module object otherwise (field absent or
falsy) — the source's unwrapping is the JavaScript `||`, which tests
truthiness, not field presence. -/
theorem ts_success_unwraps_truthy_default (env : ModuleEnv) (p t : String)
    (fs : List (String × JsValue)) (hext : extname p = ".ts")
    (hreq : env.require p = .ok (.obj fs)) :
    (loadModule env p t).1 =
      .ok (if truthy ((fs.lookup "default").getD .undef)
           then (fs.lookup "default").getD .undef
           else .obj fs) := by
  rw [loadModule_ts env p t hext]
  show (tsBody env p).1 = _
  unfold tsBody requireDefaultOrRaw
  rw [hreq]
  show (catchEsmFallback env p
      (if truthy ((fs.lookup "default").getD JsValue.undef)
       then (Except.ok ((fs.lookup "default").getD JsValue.undef), [Ev.syncRequire p])
       else (Except.ok (JsValue.obj fs),
         [Ev.syncRequire p, Ev.syncRequire p]))).1 = _
  by_cases hd : truthy ((fs.lookup "default").getD JsValue.undef)
  · rw [if_pos hd, if_pos hd]
    rfl
  · rw [if_neg hd, if_neg hd]
    rfl

/-- Witness for the amended C1 theorem at a concrete truthy default export. -/
theorem ts_success_unwraps_truthy_default_witness :
    extname "a.ts" = ".ts" ∧
    envTruthyDefault.require "a.ts" = .ok (.obj [("default", .num 5)]) ∧
    (loadModule envTruthyDefault "a.ts" "tsconfig.json").1 = .ok (.num 5) :=
  ⟨by decide, rfl,
    ts_success_unwraps_truthy_default envTruthyDefault "a.ts" "tsconfig.json"
      [("default", .num 5)] (by decide) rfl⟩

/-- Counterexample to C1 as stated: the module object of "a.ts" has the field
"default" (holding the falsy value `false`), yet `loadModule` returns the raw
module object rather than that field's value. -/
theorem ts_default_field_not_returned_when_falsy :
    extname "a.ts" = ".ts" ∧
    envFalsyDefault.require "a.ts" = .ok (.obj [("default", .bool false)]) ∧
    ([("default", JsValue.bool false)].lookup "default" = some (JsValue.bool false)) ∧
    (loadModule envFalsyDefault "a.ts" "tsconfig.json").1 =
      .ok (.obj [("default", .bool false)]) ∧
    (loadModule envFalsyDefault "a.ts" "tsconfig.json").1 ≠ .ok (.bool false) := by
  refine ⟨by decide, rfl, rfl, rfl, fun hcontra => ?_⟩
  have h1 : Except.ok (ε := JsError) (JsValue.obj [("default", JsValue.bool false)]) =
      Except.ok (JsValue.bool false) := hcontra
  have h2 : JsValue.obj [("default", JsValue.bool false)] = JsValue.bool false := by
    injection h1
  exact JsValue.noConfusion h2

/-- C2: for a ".ts" path, the registrar subtrace of a `loadModule` call is
exactly the registration followed by its deregistration, for every module
environment — normal return, ESM fallback and propagated error alike — so no
registration outlives the call. -/
theorem ts_registration_balanced (env : ModuleEnv) (p t : String)
    (hext : extname p = ".ts") :
    regEvents (loadModule env p t).2 = [Ev.register t, Ev.unregister t] := by
  rw [loadModule_ts env p t hext]
  show regEvents ((Ev.register t :: (tsBody env p).2) ++ [Ev.unregister t]) = _
  unfold regEvents
  rw [List.filter_append, List.filter_cons]
  have hb : (tsBody env p).2.filter isRegEvent = [] :=
    List.filter_eq_nil_iff.mpr (by intro a ha; simp [tsBody_snd_not_reg env p a ha])
  rw [hb]
  rfl

/-- Witness for C2 on a concrete ".ts" load. -/
theorem ts_registration_balanced_witness :
    extname "a.ts" = ".ts" ∧
    regEvents (loadModule envTruthyDefault "a.ts" "tsconfig.json").2 =
      [Ev.register "tsconfig.json", Ev.unregister "tsconfig.json"] :=
  ⟨by decide, ts_registration_balanced envTruthyDefault "a.ts" "tsconfig.json" (by decide)⟩

/-- Counterexample to C3 as stated: for the unrecognized extension ".js" on a
module object with a (truthy) "default" field, `loadModule` returns the raw
object while the ".ts" branch with registration removed (`tsBody`) returns the
unwrapped "default" field, so the two are not identical for every module
content. -/
theorem default_branch_differs_from_ts_body :
    extname "a.js" = ".js" ∧
    (loadModule envTruthyDefault "a.js" "tsconfig.json").1 =
      .ok (.obj [("default", .num 5)]) ∧
    (tsBody envTruthyDefault "a.js").1 = .ok (.num 5) ∧
    loadModule envTruthyDefault "a.js" "tsconfig.json" ≠ tsBody envTruthyDefault "a.js" := by
  refine ⟨by decide, rfl, rfl, fun hcontra => ?_⟩
  have h1 : Except.ok (ε := JsError) (JsValue.obj [("default", JsValue.num 5)]) =
      Except.ok (JsValue.num 5) := congrArg Prod.fst hcontra
  have h2 : JsValue.obj [("default", JsValue.num 5)] = JsValue.num 5 := by
    injection h1
  exact JsValue.noConfusion h2

/-- C3, amended: for a path with an unrecognized extension, when the synchronous
load fails `loadModule` behaves identically (same outcome, same events) to the
".ts" branch with the registration step removed — same ERR_REQUIRE_ESM fallback
and same rethrow — while on synchronous success it returns the raw loaded
value, without the "default" unwrapping the ".ts" branch performs. -/
theorem default_branch_vs_ts_body (env : ModuleEnv) (p t : String)
    (h1 : extname p ≠ ".mjs") (h2 : extname p ≠ ".cjs") (h3 : extname p ≠ ".ts") :
    ((env.require p).isOk = false → loadModule env p t = tsBody env p) ∧
    (∀ v, env.require p = .ok v → loadModule env p t = (.ok v, [Ev.syncRequire p])) := by
  rw [loadModule_other env p t h1 h2 h3]
  constructor
  · intro hfail
    unfold defaultBody tsBody requireDefaultOrRaw
    rcases hr : env.require p with e | v
    · rfl
    · rw [hr] at hfail
      exact Bool.noConfusion hfail
  · intro v hv
    unfold defaultBody catchEsmFallback
    rw [hv]

/-- Witness for the amended C3 theorem: on a failing synchronous load the default
branch and the deregistered ".ts" body coincide. -/
theorem default_branch_vs_ts_body_witness :
    extname "a.js" ≠ ".mjs" ∧ (envOtherErr.require "a.js").isOk = false ∧
    loadModule envOtherErr "a.js" "tsconfig.json" = tsBody envOtherErr "a.js" :=
  ⟨by decide, rfl,
    (default_branch_vs_ts_body envOtherErr "a.js" "tsconfig.json" (by decide) (by decide)
      (by decide)).1 rfl⟩

/-- C4: in the ".ts" and default branches, a synchronous-load error whose code
is not ERR_REQUIRE_ESM is rethrown to the caller unchanged — the identical
error value, unwrapped — and no second load attempt is made: the load-event
subtrace is the single synchronous require. -/
theorem non_esm_error_rethrown_once (env : ModuleEnv) (p t : String) (e : JsError)
    (h1 : extname p ≠ ".mjs") (h2 : extname p ≠ ".cjs")
    (hreq : env.require p = .error e) (hcode : e.code ≠ some "ERR_REQUIRE_ESM") :
    (loadModule env p t).1 = .error e ∧
    loadEvents (loadModule env p t).2 = [Ev.syncRequire p] := by
  have hbody : ∀ evs, catchEsmFallback env p (.error e, evs) = (.error e, evs) := by
    intro evs
    unfold catchEsmFallback
    show (if e.code = some "ERR_REQUIRE_ESM" then
        let u := pathToFileURL p
        (importDefault env u, evs ++ [Ev.dynImport u])
      else (Except.error e, evs)) = (Except.error e, evs)
    rw [if_neg hcode]
  by_cases h3 : extname p = ".ts"
  · have hts : tsBody env p = (.error e, [Ev.syncRequire p]) := by
      unfold tsBody requireDefaultOrRaw
      rw [hreq]
      exact hbody _
    rw [loadModule_ts env p t h3, hts]
    exact ⟨rfl, rfl⟩
  · have hd : defaultBody env p = (.error e, [Ev.syncRequire p]) := by
      unfold defaultBody
      rw [hreq]
      exact hbody _
    rw [loadModule_other env p t h1 h2 h3, hd]
    exact ⟨rfl, rfl⟩

/-- Witness for C4: a MODULE_NOT_FOUND failure of a ".ts" load is surfaced
unchanged after exactly one synchronous attempt. -/
theorem non_esm_error_rethrown_once_witness :
    extname "a.ts" ≠ ".mjs" ∧
    envOtherErr.require "a.ts" = .error ⟨some "MODULE_NOT_FOUND", 2⟩ ∧
    (some "MODULE_NOT_FOUND" ≠ some "ERR_REQUIRE_ESM") ∧
    (loadModule envOtherErr "a.ts" "tsconfig.json").1 =
      .error ⟨some "MODULE_NOT_FOUND", 2⟩ ∧
    loadEvents (loadModule envOtherErr "a.ts" "tsconfig.json").2 =
      [Ev.syncRequire "a.ts"] :=
  ⟨by decide, rfl, by decide,
    non_esm_error_rethrown_once envOtherErr "a.ts" "tsconfig.json" _
      (by decide) (by decide) rfl (by decide)⟩

/-- C5: when the synchronous load of a ".ts" or default-branch path throws the
format-mismatch signal ERR_REQUIRE_ESM, `loadModule` returns the "default"
field of the namespace produced by dynamically importing the path converted to
a file URL. -/
theorem esm_fallback_returns_import_default (env : ModuleEnv) (p t : String)
    (e : JsError) (ns : JsValue)
    (h1 : extname p ≠ ".mjs") (h2 : extname p ≠ ".cjs")
    (hreq : env.require p = .error e) (hcode : e.code = some "ERR_REQUIRE_ESM")
    (himp : env.importModule (pathToFileURL p) = .ok ns) :
    (loadModule env p t).1 = getField ns "default" := by
  rw [loadModule_esm_fallback env p t e h1 h2 hreq hcode]
  unfold importDefault loadEsmModule
  rw [himp]
  rfl

/-- Witness for C5 on a concrete ERR_REQUIRE_ESM fallback. -/
theorem esm_fallback_returns_import_default_witness :
    extname "a.js" ≠ ".mjs" ∧
    envEsmErr.require "a.js" = .error ⟨some "ERR_REQUIRE_ESM", 3⟩ ∧
    envEsmErr.importModule (pathToFileURL "a.js") = .ok (.obj [("default", .num 7)]) ∧
    (loadModule envEsmErr "a.js" "tsconfig.json").1 =
      getField (.obj [("default", .num 7)]) "default" :=
  ⟨by decide, rfl, rfl,
    esm_fallback_returns_import_default envEsmErr "a.js" "tsconfig.json" _ _
      (by decide) (by decide) rfl rfl rfl⟩

/-- C6: a ".mjs" path performs exactly one load action — the dynamic import of
the path's file URL, never the synchronous primitive and never a registration —
and the outcome is the "default" field of the imported namespace. -/
theorem mjs_only_dynamic_import (env : ModuleEnv) (p t : String)
    (hext : extname p = ".mjs") :
    (loadModule env p t).1 = importDefault env (pathToFileURL p) ∧
    (loadModule env p t).2 = [Ev.dynImport (pathToFileURL p)] := by
  rw [loadModule_mjs env p t hext]
  exact ⟨rfl, rfl⟩

/-- Witness for C6 on a concrete ".mjs" load. -/
theorem mjs_only_dynamic_import_witness :
    extname "a.mjs" = ".mjs" ∧
    (loadModule envTruthyDefault "a.mjs" "tsconfig.json").1 =
      importDefault envTruthyDefault (pathToFileURL "a.mjs") ∧
    (loadModule envTruthyDefault "a.mjs" "tsconfig.json").2 =
      [Ev.dynImport (pathToFileURL "a.mjs")] :=
  ⟨by decide, mjs_only_dynamic_import envTruthyDefault "a.mjs" "tsconfig.json" (by decide)⟩

/-- C7: a ".cjs" path returns exactly the synchronous primitive's result — no
"default" unwrapping, no fallback, no registrar action: the whole call is the
single `require` invocation. -/
theorem cjs_raw_require (env : ModuleEnv) (p t : String) (hext : extname p = ".cjs") :
    loadModule env p t = (env.require p, [Ev.syncRequire p]) :=
  loadModule_cjs env p t hext

/-- Witness for C7 on a concrete ".cjs" load: the raw module object comes back
wrapped in nothing, even though it has a "default" field. -/
theorem cjs_raw_require_witness :
    extname "a.cjs" = ".cjs" ∧
    loadModule envTruthyDefault "a.cjs" "tsconfig.json" =
      (envTruthyDefault.require "a.cjs", [Ev.syncRequire "a.cjs"]) :=
  ⟨by decide, cjs_raw_require envTruthyDefault "a.cjs" "tsconfig.json" (by decide)⟩

/-- C8: loading the same unchanged module twice — same path, same project
descriptor, same module environment — succeeds twice with equal results when
the first call succeeds, and the two calls leave the registrar state exactly
where it started (the loader keeps no cache and leaks no registration between
the calls). -/
theorem load_twice_equal_results (env : ModuleEnv) (p t : String) (v : JsValue)
    (s : List String) (h : (loadTwice env p t).1.1 = .ok v) :
    (loadTwice env p t).1.2 = .ok v ∧
    (loadTwice env p t).1.1 = (loadTwice env p t).1.2 ∧
    runEvents s (loadTwice env p t).2 = s := by
  refine ⟨h, rfl, ?_⟩
  show runEvents s ((loadModule env p t).2 ++ (loadModule env p t).2) = s
  unfold runEvents
  rw [List.foldl_append]
  have h1 : List.foldl applyEv s (loadModule env p t).2 = s := runEvents_loadModule env p t s
  rw [h1, h1]

/-- Witness for C8: a concrete ".ts" module loaded twice from an untouched
registrar stack. -/
theorem load_twice_equal_results_witness :
    (loadTwice envTruthyDefault "a.ts" "tsconfig.json").1.1 = .ok (.num 5) ∧
    (loadTwice envTruthyDefault "a.ts" "tsconfig.json").1.2 = .ok (.num 5) ∧
    (loadTwice envTruthyDefault "a.ts" "tsconfig.json").1.1 =
      (loadTwice envTruthyDefault "a.ts" "tsconfig.json").1.2 ∧
    runEvents ["existing"] (loadTwice envTruthyDefault "a.ts" "tsconfig.json").2 =
      ["existing"] :=
  ⟨rfl, load_twice_equal_results envTruthyDefault "a.ts" "tsconfig.json" (.num 5)
    ["existing"] rfl⟩

/-- C9: the registrar is touched only by the ".ts" branch — for any other
extension the registrar subtrace of the call is empty and the call's entire
behaviour is independent of the tsConfig argument. -/
theorem registrar_untouched_off_ts (env : ModuleEnv) (p t t2 : String)
    (hext : extname p ≠ ".ts") :
    regEvents (loadModule env p t).2 = [] ∧
    loadModule env p t = loadModule env p t2 := by
  by_cases h1 : extname p = ".mjs"
  · rw [loadModule_mjs env p t h1, loadModule_mjs env p t2 h1]
    exact ⟨rfl, rfl⟩
  · by_cases h2 : extname p = ".cjs"
    · rw [loadModule_cjs env p t h2, loadModule_cjs env p t2 h2]
      exact ⟨rfl, rfl⟩
    · rw [loadModule_other env p t h1 h2 hext, loadModule_other env p t2 h1 h2 hext]
      refine ⟨?_, rfl⟩
      exact List.filter_eq_nil_iff.mpr
        (by intro a ha; simp [defaultBody_snd_not_reg env p a ha])

/-- Witness for C9 on a concrete ".cjs" load under two different descriptors. -/
theorem registrar_untouched_off_ts_witness :
    extname "a.cjs" ≠ ".ts" ∧
    regEvents (loadModule envTruthyDefault "a.cjs" "tsconfig.json").2 = [] ∧
    loadModule envTruthyDefault "a.cjs" "tsconfig.json" =
      loadModule envTruthyDefault "a.cjs" "other-tsconfig.json" :=
  ⟨by decide,
    registrar_untouched_off_ts envTruthyDefault "a.cjs" "tsconfig.json"
      "other-tsconfig.json" (by decide)⟩

/-- C10: every path that reaches the dynamic import — the ".mjs" branch and the
ERR_REQUIRE_ESM fallback of the ".ts" and default branches — reads the
namespace's "default" field unconditionally, so a namespace without a default
export makes `loadModule` return `undefined`, never the namespace object
itself. -/
theorem dynamic_import_reads_default_unconditionally (env : ModuleEnv)
    (p t : String) (fs : List (String × JsValue))
    (himp : env.importModule (pathToFileURL p) = .ok (.obj fs))
    (hnodef : fs.lookup "default" = none)
    (hbranch : extname p = ".mjs" ∨
      (extname p ≠ ".mjs" ∧ extname p ≠ ".cjs" ∧
        ∃ e, env.require p = .error e ∧ e.code = some "ERR_REQUIRE_ESM")) :
    (loadModule env p t).1 = .ok .undef := by
  have hid : importDefault env (pathToFileURL p) = .ok .undef := by
    unfold importDefault loadEsmModule
    rw [himp]
    show Except.ok ((fs.lookup "default").getD JsValue.undef) = Except.ok JsValue.undef
    rw [hnodef]
    rfl
  rcases hbranch with hext | ⟨h1, h2, e, hreq, hcode⟩
  · rw [loadModule_mjs env p t hext]
    exact hid
  · rw [loadModule_esm_fallback env p t e h1 h2 hreq hcode]
    exact hid

/-- Witness for C10: a defaultless ESM namespace loaded through the ".ts"
fallback yields `undefined`. -/
theorem dynamic_import_reads_default_unconditionally_witness :
    envEsmNoDefault.importModule (pathToFileURL "a.ts") = .ok (.obj [("named", .num 9)]) ∧
    ([("named", JsValue.num 9)].lookup "default" = none) ∧
    (loadModule envEsmNoDefault "a.ts" "tsconfig.json").1 = .ok .undef :=
  ⟨rfl, rfl,
    dynamic_import_reads_default_unconditionally envEsmNoDefault "a.ts" "tsconfig.json"
      [("named", .num 9)] rfl rfl
      (Or.inr ⟨by decide, by decide, ⟨some "ERR_REQUIRE_ESM", 3⟩, rfl, rfl⟩)⟩
